import Mathlib

/-!
Verification of the exam-cheating-detection repository core:
the risk fusion engine (src/utils/cheating_probability.py),
the violation classifier (src/main.py), the alert dispatcher
(src/utils/alert_system.py) and the report statistics aggregator
(src/reporting/report_generator.py), shallowly embedded in Lean.
-/

/-- Per-frame detection signals, as consumed by the calculator and the
classifier (`results` dict in src/main.py).  Gaze direction is kept as a
string, mirroring the source comparison `results["gaze_direction"] != "Center"`. -/
structure FrameSignals where
  face_present : Bool
  gaze_direction : String
  mouth_moving : Bool
  multiple_faces : Bool
  objects_detected : Bool
deriving DecidableEq, Repr

namespace CheatingProbabilityCalculator

/-- Risk weights fixed in CheatingProbabilityCalculator.__init__. -/
def weights : String → Nat
  | "FACE_DISAPPEARED" => 40
  | "MULTIPLE_FACES" => 50
  | "OBJECT_DETECTED" => 45
  | "MOUTH_MOVING" => 20
  | "GAZE_AWAY" => 15
  | _ => 0

/-- CheatingProbabilityCalculator.compute_frame_score: additive weighted
score with explanatory reasons, accumulated in source order and clamped
with min(score, 100). -/
def compute_frame_score (results : FrameSignals) : Nat × List String :=
  let score : Nat := 0
  let reasons : List String := []
  let (score, reasons) :=
    if !results.face_present then
      (score + weights "FACE_DISAPPEARED", reasons ++ ["Face not visible"])
    else (score, reasons)
  let (score, reasons) :=
    if results.multiple_faces then
      (score + weights "MULTIPLE_FACES", reasons ++ ["Multiple faces detected"])
    else (score, reasons)
  let (score, reasons) :=
    if results.objects_detected then
      (score + weights "OBJECT_DETECTED", reasons ++ ["Suspicious object detected"])
    else (score, reasons)
  let (score, reasons) :=
    if results.mouth_moving then
      (score + weights "MOUTH_MOVING", reasons ++ ["Mouth movement detected"])
    else (score, reasons)
  let (score, reasons) :=
    if results.gaze_direction ≠ "Center" then
      (score + weights "GAZE_AWAY", reasons ++ ["Looking away from screen"])
    else (score, reasons)
  (min score 100, reasons)

end CheatingProbabilityCalculator

/-- Calculator state: the window capacity and the FIFO history of frame
scores (`deque(maxlen=window_size)` in the source, oldest entry first). -/
structure Calculator where
  window_size : Nat
  history : List Nat
deriving DecidableEq, Repr

namespace CheatingProbabilityCalculator

/-- Appending to a deque with maxlen `w`: the new element goes on the
right, and elements are evicted from the left whenever the length would
exceed `w`. -/
def dequeAppend (w : Nat) (h : List Nat) (x : Nat) : List Nat :=
  if w < (h ++ [x]).length then (h ++ [x]).drop ((h ++ [x]).length - w)
  else h ++ [x]

/-- CheatingProbabilityCalculator.update: pushes the frame score into the
window and returns the truncated mean of the window paired with the
current frame's reasons.  `int(sum(h)/len(h))` on nonnegative integers is
truncating division, i.e. Nat division (the float quotient of these small
integers is exact enough that rounding never crosses an integer). -/
def update (c : Calculator) (results : FrameSignals) :
    Calculator × Nat × List String :=
  let (frame_score, reasons) := compute_frame_score results
  let h := dequeAppend c.window_size c.history frame_score
  (⟨c.window_size, h⟩, h.sum / h.length, reasons)

/-- Feed a list of frames in order, collecting each returned
(rolling_average, reasons) pair. -/
def runUpdates (c : Calculator) : List FrameSignals →
    Calculator × List (Nat × List String)
  | [] => (c, [])
  | s :: ss =>
      let (c', avg, reasons) := update c s
      let (cEnd, outs) := runUpdates c' ss
      (cEnd, (avg, reasons) :: outs)

end CheatingProbabilityCalculator

/-!
## Alert dispatcher (src/utils/alert_system.py)
Times (time.time() values) are modelled as integers; the cooldown check
and the recorded last-emission time use the caller-supplied `now`.  The
detached background unit is modelled by its observable effect: an audio
emission happens iff the type has a message in the fixed alerts map.
-/

namespace AlertSystem

/-- Fixed alert-message database built in AlertSystem.__init__. -/
def alerts : String → Option String
  | "FACE_DISAPPEARED" => some "Please look at the screen"
  | "FACE_REAPPEARED" => some "Thank you for looking at the screen"
  | "MULTIPLE_FACES" => some "We detected multiple people"
  | "OBJECT_DETECTED" => some "Unauthorized object detected"
  | "GAZE_AWAY" => some "Please focus on your screen"
  | "MOUTH_MOVING" => some "Please maintain silence during exam"
  | "SPEECH_VIOLATION" => some "Speaking during exam is not allowed"
  | "VOICE_DETECTED" =>
      some "We detected voice. Please maintain silence during the exam"
  | _ => none

/-- Association-list read with the dict.get(key, 0) default used by
_can_alert. -/
def getTime (m : List (String × Int)) (t : String) : Int :=
  match m.find? (fun p => p.1 = t) with
  | some p => p.2
  | none => 0

/-- Association-list write: dict[key] = value (update in place if the key
exists, append otherwise). -/
def setTime (m : List (String × Int)) (t : String) (v : Int) :
    List (String × Int) :=
  if m.any (fun p => p.1 = t) then
    m.map (fun p => if p.1 = t then (p.1, v) else p)
  else m ++ [(t, v)]

end AlertSystem

/-- Dispatcher state: cooldown duration, last-emission map and the audio
availability flag set once at construction (pygame.mixer.init success). -/
structure AlertSystem where
  alert_cooldown : Int
  last_alert_time : List (String × Int)
  audio_enabled : Bool
deriving DecidableEq, Repr

namespace AlertSystem

/-- AlertSystem._can_alert at time `now`: enough time has passed since the
last alert of this type (absent entries default to 0). -/
def can_alert (a : AlertSystem) (now : Int) (alert_type : String) : Bool :=
  (now - getTime a.last_alert_time alert_type) ≥ a.alert_cooldown

/-- AlertSystem.speak_alert at time `now`.  Returns the new state and
whether the spawned background unit emits audio (it returns early, with no
emission, when the type has no message in the alerts map).  When audio is
disabled or the cooldown has not elapsed the call is a no-op and nothing
is spawned. -/
def speak_alert (a : AlertSystem) (now : Int) (alert_type : String) :
    AlertSystem × Bool :=
  if !a.audio_enabled then (a, false)
  else if !can_alert a now alert_type then (a, false)
  else
    let a' : AlertSystem :=
      ⟨a.alert_cooldown, setTime a.last_alert_time alert_type now,
        a.audio_enabled⟩
    (a', (alerts alert_type).isSome)

/-- Run a sequence of speak_alert calls, collecting the emission flags. -/
def runDispatches (a : AlertSystem) : List (Int × String) →
    AlertSystem × List Bool
  | [] => (a, [])
  | (now, t) :: rest =>
      let (a', e) := speak_alert a now t
      let (aEnd, es) := runDispatches a' rest
      (aEnd, e :: es)

end AlertSystem

/-!
## Violation classifier (src/main.py, lines 191-199)
-/

/-- The if/elif chain deriving at most one violation type per frame. -/
def classifyViolation (results : FrameSignals) : Option String :=
  if !results.face_present then some "FACE_DISAPPEARED"
  else if results.multiple_faces then some "MULTIPLE_FACES"
  else if results.objects_detected then some "OBJECT_DETECTED"
  else if results.mouth_moving then some "MOUTH_MOVING"
  else none

/-!
## Report statistics aggregator (src/reporting/report_generator.py)
-/

/-- A recorded violation as consumed by _calculate_stats (only the fields
it reads). -/
structure Violation where
  vtype : String
  timestamp : String
deriving DecidableEq, Repr

/-- One timeline entry of the stats. -/
structure TimelineEntry where
  time : String
  vtype : String
  severity : Nat
deriving DecidableEq, Repr

/-- The stats dict produced by ReportGenerator._calculate_stats.
average_severity is a float in the source; modelled exactly as a
rational. -/
structure Stats where
  total : Nat
  by_type : List (String × Nat)
  timeline : List TimelineEntry
  severity_score : Nat
  average_severity : ℚ
deriving DecidableEq, Repr

namespace ReportGenerator

/-- Reporting severity map fixed in ReportGenerator.__init__. -/
def severity_map : String → Option Nat
  | "FACE_DISAPPEARED" => some 1
  | "GAZE_AWAY" => some 2
  | "MOUTH_MOVING" => some 3
  | "MULTIPLE_FACES" => some 4
  | "OBJECT_DETECTED" => some 5
  | "AUDIO_DETECTED" => some 3
  | _ => none

/-- dict.get(type, 0) style read of the by_type counter map. -/
def countOf (m : List (String × Nat)) (t : String) : Nat :=
  match m.find? (fun p => p.1 = t) with
  | some p => p.2
  | none => 0

/-- by_type[t] = by_type.get(t, 0) + 1 on the insertion-ordered dict. -/
def bumpCount (m : List (String × Nat)) (t : String) : List (String × Nat) :=
  if m.any (fun p => p.1 = t) then
    m.map (fun p => if p.1 = t then (p.1, p.2 + 1) else p)
  else m ++ [(t, 1)]

/-- Loop body of _calculate_stats for one violation: bump its type count,
add its severity (dict lookup with default 1) and append its timeline
entry. -/
def statsStep (st : Stats) (v : Violation) : Stats :=
  { st with
      by_type := bumpCount st.by_type v.vtype
      severity_score := st.severity_score + (severity_map v.vtype).getD 1
      timeline :=
        st.timeline ++ [⟨v.timestamp, v.vtype, (severity_map v.vtype).getD 1⟩] }

/-- ReportGenerator._calculate_stats: one left-to-right pass over the
violations accumulating counts, severity sum and timeline, then the
average is filled in when total > 0 (it stays at its initial 0
otherwise). -/
def calculate_stats (violations : List Violation) : Stats :=
  let s := violations.foldl statsStep
    { total := violations.length
      by_type := []
      timeline := []
      severity_score := 0
      average_severity := 0 }
  if s.total > 0 then
    { s with average_severity := (s.severity_score : ℚ) / (s.total : ℚ) }
  else s

end ReportGenerator

/-!
## Derived notions used by the statements
-/

namespace CheatingProbabilityCalculator

/-- Reachable calculator states: the window never exceeds its capacity and
every stored frame score is at most 100. -/
def Wellformed (c : Calculator) : Prop :=
  c.history.length ≤ c.window_size ∧ ∀ x ∈ c.history, x ≤ 100

end CheatingProbabilityCalculator

/-- A frame whose only violating signal is the absent face; every other
signal is at its non-violating default. -/
def faceAbsentFrame : FrameSignals :=
  ⟨false, "Center", false, false, false⟩

/-- The three-violation example of the spec: two GAZE_AWAY (severity 2)
and one OBJECT_DETECTED (severity 5). -/
def exampleViolations : List Violation :=
  [⟨"GAZE_AWAY", "t1"⟩, ⟨"GAZE_AWAY", "t2"⟩, ⟨"OBJECT_DETECTED", "t3"⟩]

/-!
## Risk fusion engine: lemmas and claims
-/

namespace CheatingProbabilityCalculator

lemma compute_frame_score_closed (s : FrameSignals) :
    compute_frame_score s =
      (min ((if s.face_present then 0 else 40) +
            (if s.multiple_faces then 50 else 0) +
            (if s.objects_detected then 45 else 0) +
            (if s.mouth_moving then 20 else 0) +
            (if s.gaze_direction ≠ "Center" then 15 else 0)) 100,
       (if s.face_present then [] else ["Face not visible"]) ++
       (if s.multiple_faces then ["Multiple faces detected"] else []) ++
       (if s.objects_detected then ["Suspicious object detected"] else []) ++
       (if s.mouth_moving then ["Mouth movement detected"] else []) ++
       (if s.gaze_direction ≠ "Center" then ["Looking away from screen"]
        else [])) := by
  obtain ⟨f, g, mm, mf, od⟩ := s
  by_cases hg : g = "Center" <;>
    cases f <;> cases mm <;> cases mf <;> cases od <;>
      simp [compute_frame_score, weights, hg]

lemma compute_frame_score_fst_le (s : FrameSignals) :
    (compute_frame_score s).1 ≤ 100 := by
  rw [compute_frame_score_closed]
  exact min_le_right _ _

lemma dequeAppend_length_le (w : Nat) (h : List Nat) (x : Nat)
    (hw : h.length ≤ w) : (dequeAppend w h x).length ≤ w := by
  unfold dequeAppend
  split <;> simp_all
  omega

lemma dequeAppend_length_pos (w : Nat) (h : List Nat) (x : Nat)
    (hw : 0 < w) : 0 < (dequeAppend w h x).length := by
  unfold dequeAppend
  split <;> simp_all

lemma mem_dequeAppend (w : Nat) (h : List Nat) (x y : Nat)
    (hy : y ∈ dequeAppend w h x) : y ∈ h ++ [x] := by
  unfold dequeAppend at hy
  split at hy
  · exact List.mem_of_mem_drop hy
  · exact hy

lemma dequeAppend_not_full (w : Nat) (h : List Nat) (x : Nat)
    (hlt : h.length < w) : dequeAppend w h x = h ++ [x] := by
  unfold dequeAppend
  split <;> simp_all
  omega

lemma dequeAppend_full (w : Nat) (h : List Nat) (x : Nat)
    (hpos : 0 < w) (heq : h.length = w) :
    dequeAppend w h x = h.tail ++ [x] := by
  unfold dequeAppend
  have h1 : (h ++ [x]).length = w + 1 := by simp [heq]
  split
  · rw [h1]
    have : w + 1 - w = 1 := by omega
    rw [this, List.drop_append_of_le_length (by omega), List.drop_one]
  · omega

lemma avg_le_100 (h : List Nat) (hb : ∀ x ∈ h, x ≤ 100) :
    h.sum / h.length ≤ 100 := by
  rcases Nat.eq_zero_or_pos h.length with hl | hl
  · simp [hl]
  · have hsum : h.sum ≤ h.length * 100 := by
      have := List.sum_le_card_nsmul h 100 hb
      simpa [smul_eq_mul] using this
    calc h.sum / h.length ≤ (h.length * 100) / h.length :=
          Nat.div_le_div_right hsum
      _ = 100 := by
          rw [Nat.mul_comm]
          exact Nat.mul_div_cancel _ hl

lemma update_eq (c : Calculator) (s : FrameSignals) :
    update c s =
      (⟨c.window_size,
        dequeAppend c.window_size c.history (compute_frame_score s).1⟩,
       (dequeAppend c.window_size c.history (compute_frame_score s).1).sum /
         (dequeAppend c.window_size c.history (compute_frame_score s).1).length,
       (compute_frame_score s).2) := rfl

lemma runUpdates_cons (c : Calculator) (s : FrameSignals)
    (ss : List FrameSignals) :
    runUpdates c (s :: ss) =
      ((runUpdates (update c s).1 ss).1,
       (update c s).2 :: (runUpdates (update c s).1 ss).2) := rfl

lemma update_wf (c : Calculator) (s : FrameSignals) (hwf : Wellformed c) :
    Wellformed (update c s).1 ∧ (update c s).1.window_size = c.window_size ∧
      (update c s).2.1 ≤ 100 := by
  obtain ⟨hlen, hb⟩ := hwf
  rw [update_eq]
  refine ⟨⟨dequeAppend_length_le _ _ _ hlen, ?_⟩, rfl, ?_⟩
  · intro x hx
    rcases List.mem_append.1 (mem_dequeAppend _ _ _ _ hx) with hx' | hx'
    · exact hb x hx'
    · simp only [List.mem_singleton] at hx'
      exact hx' ▸ compute_frame_score_fst_le s
  · refine avg_le_100 _ ?_
    intro x hx
    rcases List.mem_append.1 (mem_dequeAppend _ _ _ _ hx) with hx' | hx'
    · exact hb x hx'
    · simp only [List.mem_singleton] at hx'
      exact hx' ▸ compute_frame_score_fst_le s

lemma runUpdates_wf (inputs : List FrameSignals) :
    ∀ c : Calculator, Wellformed c →
      Wellformed (runUpdates c inputs).1 ∧
      (runUpdates c inputs).1.window_size = c.window_size ∧
      ∀ out ∈ (runUpdates c inputs).2, out.1 ≤ 100 := by
  induction inputs with
  | nil =>
      intro c hwf
      exact ⟨hwf, rfl, by simp [runUpdates]⟩
  | cons s ss ih =>
      intro c hwf
      have hstep := update_wf c s hwf
      have hrec := ih (update c s).1 hstep.1
      rw [runUpdates_cons]
      refine ⟨hrec.1, hrec.2.1.trans hstep.2.1, ?_⟩
      intro out hout
      rcases List.mem_cons.1 hout with hout' | hout'
      · exact hout' ▸ hstep.2.2
      · exact hrec.2.2 out hout'

lemma avg_const (h : List Nat) (s : Nat) (hne : 0 < h.length)
    (hall : ∀ x ∈ h, x = s) : h.sum / h.length = s := by
  have hsum : h.sum = h.length * s := by
    induction h with
    | nil => simp
    | cons a t ih =>
        have ha : a = s := hall a (List.mem_cons_self a t)
        have ht : ∀ x ∈ t, x = s := fun x hx =>
          hall x (List.mem_cons_of_mem a hx)
        rcases Nat.eq_zero_or_pos t.length with h0 | hpos
        · have : t = [] := List.length_eq_zero.1 h0
          simp [this, ha]
        · have := ih hpos ht
          simp [List.sum_cons, this, ha, Nat.succ_mul, Nat.add_comm]
  rw [hsum, Nat.mul_div_cancel_left _ hne]

lemma runUpdates_const (s : Nat) (n : Nat) (hn : 0 < n) :
    ∀ (inputs : List FrameSignals) (h : List Nat),
      (∀ i ∈ inputs, (compute_frame_score i).1 = s) →
      (∀ x ∈ h, x = s) →
      ∀ out ∈ (runUpdates ⟨n, h⟩ inputs).2, out.1 = s := by
  intro inputs
  induction inputs with
  | nil => intro h _ _ out hout; simp [runUpdates] at hout
  | cons i rest ih =>
      intro h hin hall out hout
      rw [runUpdates_cons] at hout
      have hsi : (compute_frame_score i).1 = s :=
        hin i (List.mem_cons_self i rest)
      have hall' : ∀ x ∈ dequeAppend n h (compute_frame_score i).1,
          x = s := by
        intro x hx
        rcases List.mem_append.1 (mem_dequeAppend _ _ _ _ hx) with hx' | hx'
        · exact hall x hx'
        · simpa [hsi] using hx'
      rcases List.mem_cons.1 hout with hout' | hout'
      · subst hout'
        rw [update_eq]
        exact avg_const _ _ (dequeAppend_length_pos _ _ _ hn) hall'
      · have := ih (dequeAppend n h (compute_frame_score i).1)
          (fun j hj => hin j (List.mem_cons_of_mem i hj)) hall' out
        rw [update_eq] at hout'
        exact this hout'

end CheatingProbabilityCalculator

open CheatingProbabilityCalculator in
/-- Claim C4: compute_frame_score adds the configured weight of each
holding condition, in the fixed order face absence, multiple faces, object
detected, mouth movement, gaze away from Center, appends the matching
fixed reason string in that same order, and returns the minimum of the
accumulated sum and 100. -/
theorem c4_compute_frame_score_closed_form (s : FrameSignals) :
    compute_frame_score s =
      (min ((if s.face_present then 0 else 40) +
            (if s.multiple_faces then 50 else 0) +
            (if s.objects_detected then 45 else 0) +
            (if s.mouth_moving then 20 else 0) +
            (if s.gaze_direction ≠ "Center" then 15 else 0)) 100,
       (if s.face_present then [] else ["Face not visible"]) ++
       (if s.multiple_faces then ["Multiple faces detected"] else []) ++
       (if s.objects_detected then ["Suspicious object detected"] else []) ++
       (if s.mouth_moving then ["Mouth movement detected"] else []) ++
       (if s.gaze_direction ≠ "Center" then ["Looking away from screen"]
        else [])) :=
  compute_frame_score_closed s

/-- Claim C2: the classifier returns at most one violation type, by the
precedence FACE_DISAPPEARED over MULTIPLE_FACES over OBJECT_DETECTED over
MOUTH_MOVING; with the face absent and multiple faces present it returns
FACE_DISAPPEARED and never MULTIPLE_FACES, and with none of the four
conditions present it returns no violation. -/
theorem c2_classifier_precedence (s : FrameSignals) :
    (s.face_present = false → classifyViolation s = some "FACE_DISAPPEARED") ∧
    (s.face_present = false ∧ s.multiple_faces = true →
      classifyViolation s = some "FACE_DISAPPEARED" ∧
      classifyViolation s ≠ some "MULTIPLE_FACES") ∧
    (s.face_present = true ∧ s.multiple_faces = true →
      classifyViolation s = some "MULTIPLE_FACES") ∧
    (s.face_present = true ∧ s.multiple_faces = false ∧
        s.objects_detected = true →
      classifyViolation s = some "OBJECT_DETECTED") ∧
    (s.face_present = true ∧ s.multiple_faces = false ∧
        s.objects_detected = false ∧ s.mouth_moving = true →
      classifyViolation s = some "MOUTH_MOVING") ∧
    (s.face_present = true ∧ s.multiple_faces = false ∧
        s.objects_detected = false ∧ s.mouth_moving = false →
      classifyViolation s = none) := by
  obtain ⟨f, g, mm, mf, od⟩ := s
  cases f <;> cases mm <;> cases mf <;> cases od <;>
    simp [classifyViolation]

/-- Witness for C2 at a frame with the face absent and multiple faces
present simultaneously. -/
theorem c2_classifier_precedence_witness :
    classifyViolation ⟨false, "Center", false, true, false⟩ =
      some "FACE_DISAPPEARED" ∧
    classifyViolation ⟨false, "Center", false, true, false⟩ ≠
      some "MULTIPLE_FACES" :=
  (c2_classifier_precedence ⟨false, "Center", false, true, false⟩).2.1
    ⟨rfl, rfl⟩

open CheatingProbabilityCalculator in
/-- Claim C3: update appends the current frame score to the FIFO window,
evicting the oldest entry exactly when the window already holds
window_size entries, returns the truncated arithmetic mean of the
resulting window paired with the current frame's reasons only, and the
very first call returns that first frame's score. -/
theorem c3_update_fifo (c : Calculator) (s : FrameSignals)
    (hpos : 0 < c.window_size)
    (hlen : c.history.length ≤ c.window_size) :
    ((update c s).2.2 = (compute_frame_score s).2) ∧
    ((update c s).2.1 =
      (update c s).1.history.sum / (update c s).1.history.length) ∧
    (c.history.length < c.window_size →
      (update c s).1.history = c.history ++ [(compute_frame_score s).1]) ∧
    (c.history.length = c.window_size →
      (update c s).1.history =
        c.history.tail ++ [(compute_frame_score s).1]) ∧
    (c.history = [] → (update c s).2.1 = (compute_frame_score s).1) := by
  rw [update_eq]
  refine ⟨rfl, rfl, ?_, ?_, ?_⟩
  · intro hlt
    exact dequeAppend_not_full _ _ _ hlt
  · intro heq
    exact dequeAppend_full _ _ _ hpos heq
  · intro hnil
    have h1 : dequeAppend c.window_size c.history (compute_frame_score s).1 =
        [(compute_frame_score s).1] := by
      rw [hnil]
      rw [dequeAppend_not_full _ _ _ (by simpa [hnil] using hpos)]
      rfl
    simp [h1]

/-- Witness for C3: a window of capacity 3 holding two entries, fed one
face-absent frame. -/
theorem c3_update_fifo_witness :
    (CheatingProbabilityCalculator.update ⟨3, [10, 20]⟩ faceAbsentFrame).1.history =
      [10, 20] ++
        [(CheatingProbabilityCalculator.compute_frame_score faceAbsentFrame).1] :=
  (c3_update_fifo ⟨3, [10, 20]⟩ faceAbsentFrame (by decide) (by decide)).2.2.1
    (by decide)

open CheatingProbabilityCalculator in
/-- Claim C6: from any reachable calculator state with positive capacity,
any sequence of update calls keeps the window length at most window_size,
keeps every stored score at most 100, and every returned rolling average
and every frame score lies in the range 0 to 100 (scores are naturals, so
the lower bound is inherent). -/
theorem c6_invariants (c : Calculator) (inputs : List FrameSignals)
    (hpos : 0 < c.window_size) (hwf : Wellformed c) :
    (runUpdates c inputs).1.history.length ≤ c.window_size ∧
    Wellformed (runUpdates c inputs).1 ∧
    (∀ out ∈ (runUpdates c inputs).2, out.1 ≤ 100) ∧
    (∀ s : FrameSignals, (compute_frame_score s).1 ≤ 100) := by
  have h := runUpdates_wf inputs c hwf
  refine ⟨?_, h.1, h.2.2, compute_frame_score_fst_le⟩
  have := h.1.1
  rw [h.2.1] at this
  exact this

/-- Witness for C6: two frames through a fresh calculator of capacity 1. -/
theorem c6_invariants_witness :
    (CheatingProbabilityCalculator.runUpdates ⟨1, []⟩
        [faceAbsentFrame, faceAbsentFrame]).1.history.length ≤ 1 :=
  (c6_invariants ⟨1, []⟩ [faceAbsentFrame, faceAbsentFrame] (by decide)
    ⟨by decide, by decide⟩).1

open CheatingProbabilityCalculator in
/-- Claim C8: feeding a fresh calculator with positive capacity any
sequence of frames that all produce the same frame score s yields s as
the rolling average on every step; in particular 30 face-absent frames
through a window of 30 give average 40 and reason list with the single
entry Face not visible on every frame. -/
theorem c8_constant_frames (s n : Nat) (hn : 0 < n)
    (inputs : List FrameSignals)
    (hs : ∀ i ∈ inputs, (compute_frame_score i).1 = s) :
    (∀ out ∈ (runUpdates ⟨n, []⟩ inputs).2, out.1 = s) ∧
    (runUpdates ⟨30, []⟩ (List.replicate 30 faceAbsentFrame)).2 =
      List.replicate 30 (40, ["Face not visible"]) := by
  constructor
  · exact runUpdates_const s n hn inputs [] hs (by simp)
  · decide

/-- Witness for C8: the 30-frame face-absent scenario itself. -/
theorem c8_constant_frames_witness :
    (CheatingProbabilityCalculator.runUpdates ⟨30, []⟩
        (List.replicate 30 faceAbsentFrame)).2 =
      List.replicate 30 (40, ["Face not visible"]) :=
  (c8_constant_frames 40 30 (by decide) (List.replicate 30 faceAbsentFrame)
    (by decide)).2

namespace AlertSystem

lemma getTime_cons (k : String) (w : Int) (m : List (String × Int))
    (t : String) :
    getTime ((k, w) :: m) t = if k = t then w else getTime m t := by
  by_cases hk : k = t <;> simp [getTime, List.find?_cons, hk]

lemma setTime_cons_eq (k : String) (w v : Int) (rest : List (String × Int)) :
    setTime ((k, w) :: rest) k v =
      (k, v) :: rest.map (fun p => if p.1 = k then (p.1, v) else p) := by
  simp [setTime]

lemma setTime_cons_ne (k : String) (w v : Int) (rest : List (String × Int))
    (t : String) (hk : k ≠ t) :
    setTime ((k, w) :: rest) t v = (k, w) :: setTime rest t v := by
  by_cases ha : rest.any (fun p => p.1 = t) <;> simp [setTime, hk, ha]

lemma getTime_setTime_self (m : List (String × Int)) (t : String) (v : Int) :
    getTime (setTime m t v) t = v := by
  induction m with
  | nil => simp [setTime, getTime]
  | cons p rest ih =>
      obtain ⟨k, w⟩ := p
      by_cases hk : k = t
      · subst hk
        rw [setTime_cons_eq, getTime_cons, if_pos rfl]
      · rw [setTime_cons_ne _ _ _ _ _ hk, getTime_cons, if_neg hk]
        exact ih

lemma speak_alert_disabled (a : AlertSystem) (now : Int) (t : String)
    (ha : a.audio_enabled = false) : speak_alert a now t = (a, false) := by
  simp [speak_alert, ha]

lemma speak_alert_blocked (a : AlertSystem) (now : Int) (t : String)
    (hc : can_alert a now t = false) :
    speak_alert a now t = (a, false) := by
  by_cases ha : a.audio_enabled <;> simp [speak_alert, ha, hc]

lemma speak_alert_passes (a : AlertSystem) (now : Int) (t : String)
    (ha : a.audio_enabled = true) (hc : can_alert a now t = true) :
    speak_alert a now t =
      (⟨a.alert_cooldown, setTime a.last_alert_time t now, true⟩,
       (alerts t).isSome) := by
  simp [speak_alert, ha, hc]

lemma runDispatches_cons (a : AlertSystem) (now : Int) (t : String)
    (rest : List (Int × String)) :
    runDispatches a ((now, t) :: rest) =
      ((runDispatches (speak_alert a now t).1 rest).1,
       (speak_alert a now t).2 ::
         (runDispatches (speak_alert a now t).1 rest).2) := rfl

end AlertSystem

open AlertSystem in
/-- Claim C1: with audio enabled and a message for T, a dispatch at t1
that passes the cooldown check emits, records t1 as the last emission for
T synchronously, a second dispatch within the cooldown window is a
complete no-op, and a third dispatch after the cooldown has elapsed emits
again. -/
theorem c1_cooldown_window (a : AlertSystem) (T : String) (t1 t2 t3 : Int)
    (ha : a.audio_enabled = true)
    (hmsg : (alerts T).isSome = true)
    (h1 : can_alert a t1 T = true)
    (h2 : t2 - t1 < a.alert_cooldown)
    (h3 : a.alert_cooldown ≤ t3 - t1) :
    (speak_alert a t1 T).2 = true ∧
    getTime (speak_alert a t1 T).1.last_alert_time T = t1 ∧
    speak_alert (speak_alert a t1 T).1 t2 T = ((speak_alert a t1 T).1, false) ∧
    (speak_alert (speak_alert a t1 T).1 t3 T).2 = true := by
  have hfirst := speak_alert_passes a t1 T ha h1
  rw [hfirst]
  have hget : getTime (setTime a.last_alert_time T t1) T = t1 :=
    getTime_setTime_self _ _ _
  refine ⟨hmsg, hget, ?_, ?_⟩
  · apply speak_alert_blocked
    simp only [can_alert, hget]
    simpa using h2
  · rw [speak_alert_passes _ t3 T rfl ?_]
    · exact hmsg
    · simp only [can_alert, hget]
      simpa using h3

/-- Witness for C1: cooldown 5, calls at times 10, 12 and 15 for
FACE_DISAPPEARED on a fresh dispatcher. -/
theorem c1_cooldown_window_witness :
    (AlertSystem.speak_alert ⟨5, [], true⟩ 10 "FACE_DISAPPEARED").2 = true ∧
    AlertSystem.getTime
      (AlertSystem.speak_alert ⟨5, [], true⟩ 10
        "FACE_DISAPPEARED").1.last_alert_time "FACE_DISAPPEARED" = 10 ∧
    AlertSystem.speak_alert
        (AlertSystem.speak_alert ⟨5, [], true⟩ 10 "FACE_DISAPPEARED").1 12
        "FACE_DISAPPEARED" =
      ((AlertSystem.speak_alert ⟨5, [], true⟩ 10 "FACE_DISAPPEARED").1,
        false) ∧
    (AlertSystem.speak_alert
        (AlertSystem.speak_alert ⟨5, [], true⟩ 10 "FACE_DISAPPEARED").1 15
        "FACE_DISAPPEARED").2 = true :=
  c1_cooldown_window ⟨5, [], true⟩ "FACE_DISAPPEARED" 10 12 15 rfl
    (by decide) (by decide) (by decide) (by decide)

open AlertSystem in
/-- Claim C7: with the audio flag down from construction, any sequence of
dispatch calls leaves the dispatcher state untouched and produces no
emission at any call. -/
theorem c7_degraded_noop (a : AlertSystem) (calls : List (Int × String))
    (ha : a.audio_enabled = false) :
    (runDispatches a calls).1 = a ∧
    (runDispatches a calls).2 = List.replicate calls.length false := by
  induction calls with
  | nil => exact ⟨rfl, rfl⟩
  | cons c rest ih =>
      obtain ⟨now, t⟩ := c
      rw [runDispatches_cons, speak_alert_disabled a now t ha]
      exact ⟨ih.1, by simp [List.replicate_succ, ih.2]⟩

/-- Witness for C7: two dispatch calls on a degraded dispatcher. -/
theorem c7_degraded_noop_witness :
    (AlertSystem.runDispatches ⟨5, [], false⟩
        [(0, "FACE_DISAPPEARED"), (100, "MULTIPLE_FACES")]).1 =
      ⟨5, [], false⟩ ∧
    (AlertSystem.runDispatches ⟨5, [], false⟩
        [(0, "FACE_DISAPPEARED"), (100, "MULTIPLE_FACES")]).2 =
      List.replicate 2 false :=
  c7_degraded_noop ⟨5, [], false⟩
    [(0, "FACE_DISAPPEARED"), (100, "MULTIPLE_FACES")] rfl

open AlertSystem in
/-- Claim C9: a dispatch for a type with no message in the alerts map,
made with audio enabled and the cooldown elapsed, still records the call
time as the type's last emission, so the cooldown window is consumed, and
no emission is produced. -/
theorem c9_unknown_type_consumes_cooldown (a : AlertSystem) (T : String)
    (now : Int)
    (ha : a.audio_enabled = true)
    (hc : can_alert a now T = true)
    (hmsg : alerts T = none) :
    (speak_alert a now T).1.last_alert_time =
      setTime a.last_alert_time T now ∧
    getTime (speak_alert a now T).1.last_alert_time T = now ∧
    (speak_alert a now T).2 = false := by
  rw [speak_alert_passes a now T ha hc]
  exact ⟨rfl, getTime_setTime_self _ _ _, by simp [hmsg]⟩

/-- Witness for C9: AUDIO_DETECTED has a severity weight for reports but
no alert message, so dispatching it burns the cooldown silently. -/
theorem c9_unknown_type_consumes_cooldown_witness :
    (AlertSystem.speak_alert ⟨5, [], true⟩ 7 "AUDIO_DETECTED").1.last_alert_time =
      AlertSystem.setTime [] "AUDIO_DETECTED" 7 ∧
    AlertSystem.getTime
      (AlertSystem.speak_alert ⟨5, [], true⟩ 7
        "AUDIO_DETECTED").1.last_alert_time "AUDIO_DETECTED" = 7 ∧
    (AlertSystem.speak_alert ⟨5, [], true⟩ 7 "AUDIO_DETECTED").2 = false :=
  c9_unknown_type_consumes_cooldown ⟨5, [], true⟩ "AUDIO_DETECTED" 7 rfl
    (by decide) rfl

namespace ReportGenerator

lemma countOf_nil (t : String) : countOf [] t = 0 := rfl

lemma countOf_cons (k : String) (n : Nat) (m : List (String × Nat))
    (t : String) :
    countOf ((k, n) :: m) t = if k = t then n else countOf m t := by
  by_cases hk : k = t <;> simp [countOf, List.find?_cons, hk]

lemma countOf_map_bump_ne (t t' : String) (m : List (String × Nat))
    (h : t' ≠ t) :
    countOf (m.map (fun p => if p.1 = t then (p.1, p.2 + 1) else p)) t' =
      countOf m t' := by
  induction m with
  | nil => simp [countOf]
  | cons p rest ih =>
      obtain ⟨k, v⟩ := p
      by_cases hk : k = t
      · subst hk
        have hk' : k ≠ t' := fun hkk => h hkk.symm
        simp only [List.map_cons, if_true]
        rw [countOf_cons, countOf_cons, if_neg hk', if_neg hk']
        exact ih
      · simp only [List.map_cons, if_neg hk]
        rw [countOf_cons, countOf_cons]
        by_cases hk' : k = t'
        · simp [hk']
        · rw [if_neg hk', if_neg hk']
          exact ih

lemma bumpCount_cons_ne (k : String) (v : Nat) (rest : List (String × Nat))
    (t : String) (hk : k ≠ t) :
    bumpCount ((k, v) :: rest) t = (k, v) :: bumpCount rest t := by
  by_cases ha : rest.any (fun p => p.1 = t) <;> simp [bumpCount, hk, ha]

lemma bumpCount_cons_eq (k : String) (v : Nat) (rest : List (String × Nat)) :
    bumpCount ((k, v) :: rest) k =
      (k, v + 1) ::
        rest.map (fun p => if p.1 = k then (p.1, p.2 + 1) else p) := by
  simp [bumpCount]

lemma countOf_bumpCount (m : List (String × Nat)) (t t' : String) :
    countOf (bumpCount m t) t' =
      countOf m t' + if t' = t then 1 else 0 := by
  induction m with
  | nil =>
      by_cases h : t' = t
      · simp [bumpCount, countOf, List.find?, h]
      · have h2 : t ≠ t' := fun e => h e.symm
        simp [bumpCount, countOf, List.find?, h, h2]
  | cons p rest ih =>
      obtain ⟨k, v⟩ := p
      by_cases hk : k = t
      · subst hk
        rw [bumpCount_cons_eq, countOf_cons, countOf_cons]
        by_cases ht : k = t'
        · subst ht
          simp
        · rw [if_neg ht, if_neg ht,
            countOf_map_bump_ne _ _ _ (fun e => ht e.symm),
            if_neg (fun e : t' = k => ht e.symm)]
          simp
      · rw [bumpCount_cons_ne _ _ _ _ hk, countOf_cons, countOf_cons]
        by_cases ht : k = t'
        · rw [if_pos ht, if_pos ht,
            if_neg (fun e : t' = t => hk (ht.trans e))]
          simp
        · rw [if_neg ht, if_neg ht]
          exact ih

end ReportGenerator

namespace ReportGenerator

lemma foldl_statsStep_total (vs : List Violation) :
    ∀ st : Stats, (vs.foldl statsStep st).total = st.total := by
  induction vs with
  | nil => intro st; rfl
  | cons v rest ih => intro st; rw [List.foldl_cons, ih]; rfl

lemma foldl_statsStep_avg (vs : List Violation) :
    ∀ st : Stats,
      (vs.foldl statsStep st).average_severity = st.average_severity := by
  induction vs with
  | nil => intro st; rfl
  | cons v rest ih => intro st; rw [List.foldl_cons, ih]; rfl

lemma foldl_statsStep_severity (vs : List Violation) :
    ∀ st : Stats, (vs.foldl statsStep st).severity_score =
      st.severity_score +
        (vs.map (fun v => (severity_map v.vtype).getD 1)).sum := by
  induction vs with
  | nil => intro st; simp
  | cons v rest ih =>
      intro st
      rw [List.foldl_cons, ih]
      simp [statsStep, Nat.add_assoc]

lemma foldl_statsStep_timeline (vs : List Violation) :
    ∀ st : Stats, (vs.foldl statsStep st).timeline =
      st.timeline ++ vs.map (fun v =>
        (⟨v.timestamp, v.vtype, (severity_map v.vtype).getD 1⟩ :
          TimelineEntry)) := by
  induction vs with
  | nil => intro st; simp
  | cons v rest ih =>
      intro st
      rw [List.foldl_cons, ih]
      simp [statsStep]

lemma foldl_statsStep_count (vs : List Violation) :
    ∀ (st : Stats) (t : String),
      countOf (vs.foldl statsStep st).by_type t =
        countOf st.by_type t + (vs.map Violation.vtype).count t := by
  induction vs with
  | nil => intro st t; simp
  | cons v rest ih =>
      intro st t
      rw [List.foldl_cons, ih]
      have hb : countOf (statsStep st v).by_type t =
          countOf st.by_type t + if t = v.vtype then 1 else 0 :=
        countOf_bumpCount _ _ _
      rw [hb, List.map_cons, List.count_cons]
      by_cases h : t = v.vtype
      · simp [h]
        omega
      · have h2 : ¬ v.vtype = t := fun e => h e.symm
        simp [h, h2]

end ReportGenerator

namespace ReportGenerator

lemma calculate_stats_def (vs : List Violation) :
    calculate_stats vs =
      if (vs.foldl statsStep ⟨vs.length, [], [], 0, 0⟩).total > 0 then
        { vs.foldl statsStep ⟨vs.length, [], [], 0, 0⟩ with
            average_severity :=
              ((vs.foldl statsStep ⟨vs.length, [], [], 0, 0⟩).severity_score : ℚ) /
                ((vs.foldl statsStep ⟨vs.length, [], [], 0, 0⟩).total : ℚ) }
      else vs.foldl statsStep ⟨vs.length, [], [], 0, 0⟩ := rfl

lemma calculate_stats_total (vs : List Violation) :
    (calculate_stats vs).total = vs.length := by
  rw [calculate_stats_def]
  split <;> simpa using foldl_statsStep_total vs ⟨vs.length, [], [], 0, 0⟩

lemma calculate_stats_count (vs : List Violation) (t : String) :
    countOf (calculate_stats vs).by_type t =
      (vs.map Violation.vtype).count t := by
  rw [calculate_stats_def]
  split <;>
    simpa [countOf_nil] using foldl_statsStep_count vs ⟨vs.length, [], [], 0, 0⟩ t

lemma calculate_stats_severity (vs : List Violation) :
    (calculate_stats vs).severity_score =
      (vs.map (fun v => (severity_map v.vtype).getD 1)).sum := by
  rw [calculate_stats_def]
  split <;>
    simpa using foldl_statsStep_severity vs ⟨vs.length, [], [], 0, 0⟩

lemma calculate_stats_timeline (vs : List Violation) :
    (calculate_stats vs).timeline =
      vs.map (fun v =>
        (⟨v.timestamp, v.vtype, (severity_map v.vtype).getD 1⟩ :
          TimelineEntry)) := by
  rw [calculate_stats_def]
  split <;>
    simpa using foldl_statsStep_timeline vs ⟨vs.length, [], [], 0, 0⟩

lemma calculate_stats_avg (vs : List Violation) :
    (calculate_stats vs).average_severity =
      if vs.length = 0 then 0
      else ((calculate_stats vs).severity_score : ℚ) / (vs.length : ℚ) := by
  have htot : (vs.foldl statsStep ⟨vs.length, [], [], 0, 0⟩).total =
      vs.length := by
    simpa using foldl_statsStep_total vs ⟨vs.length, [], [], 0, 0⟩
  have hsev : (calculate_stats vs).severity_score =
      (vs.foldl statsStep ⟨vs.length, [], [], 0, 0⟩).severity_score := by
    rw [calculate_stats_def]
    split <;> rfl
  rcases Nat.eq_zero_or_pos vs.length with h0 | hpos
  · rw [if_pos h0, calculate_stats_def, if_neg (by rw [htot]; omega)]
    simpa using foldl_statsStep_avg vs ⟨vs.length, [], [], 0, 0⟩
  · rw [if_neg (by omega), hsev]
    conv_lhs => rw [calculate_stats_def]
    rw [if_pos (by rw [htot]; omega)]
    simp [htot]

end ReportGenerator

open ReportGenerator in
/-- Claim C5: compute_stats is pure and deterministic, with total the
number of violations, by_type the per-type occurrence counts,
severity_score the sum of the reporting severity weights, average_severity
severity_score over total (0 when total is 0), a timeline in input order,
and on the three-violation example with weights 2 and 5 it returns total
3, counts 2 and 1, severity_score 9 and average 3. -/
theorem c5_compute_stats (vs : List Violation) :
    (calculate_stats vs).total = vs.length ∧
    (∀ t : String, countOf (calculate_stats vs).by_type t =
      (vs.map Violation.vtype).count t) ∧
    (calculate_stats vs).severity_score =
      (vs.map (fun v => (severity_map v.vtype).getD 1)).sum ∧
    (calculate_stats vs).timeline =
      vs.map (fun v =>
        (⟨v.timestamp, v.vtype, (severity_map v.vtype).getD 1⟩ :
          TimelineEntry)) ∧
    (calculate_stats vs).average_severity =
      (if vs.length = 0 then 0
       else ((calculate_stats vs).severity_score : ℚ) / (vs.length : ℚ)) ∧
    calculate_stats exampleViolations =
      ⟨3, [("GAZE_AWAY", 2), ("OBJECT_DETECTED", 1)],
       [⟨"t1", "GAZE_AWAY", 2⟩, ⟨"t2", "GAZE_AWAY", 2⟩,
        ⟨"t3", "OBJECT_DETECTED", 5⟩], 9, (3 : ℚ)⟩ :=
  ⟨calculate_stats_total vs, calculate_stats_count vs,
   calculate_stats_severity vs, calculate_stats_timeline vs,
   calculate_stats_avg vs, by
    have h5 : (calculate_stats exampleViolations).average_severity = 3 := by
      rw [calculate_stats_avg,
        if_neg (by decide : ¬ exampleViolations.length = 0),
        show (calculate_stats exampleViolations).severity_score = 9 from
          by decide,
        show exampleViolations.length = 3 from rfl]
      norm_num
    refine Eq.trans (b :=
      (⟨(calculate_stats exampleViolations).total,
        (calculate_stats exampleViolations).by_type,
        (calculate_stats exampleViolations).timeline,
        (calculate_stats exampleViolations).severity_score,
        (calculate_stats exampleViolations).average_severity⟩ : Stats)) rfl ?_
    rw [h5,
      show (calculate_stats exampleViolations).total = 3 from by decide,
      show (calculate_stats exampleViolations).by_type =
        [("GAZE_AWAY", 2), ("OBJECT_DETECTED", 1)] from by decide,
      show (calculate_stats exampleViolations).timeline =
        [⟨"t1", "GAZE_AWAY", 2⟩, ⟨"t2", "GAZE_AWAY", 2⟩,
         ⟨"t3", "OBJECT_DETECTED", 5⟩] from by decide,
      show (calculate_stats exampleViolations).severity_score = 9 from
        by decide]⟩

open ReportGenerator in
/-- Claim C10: a violation whose type is absent from the severity map is
still counted in total and by_type and contributes the default severity
weight 1 to severity_score, average_severity and its timeline entry. -/
theorem c10_missing_severity_default (vs : List Violation) (v : Violation)
    (hmiss : severity_map v.vtype = none) :
    (calculate_stats (vs ++ [v])).total = vs.length + 1 ∧
    countOf (calculate_stats (vs ++ [v])).by_type v.vtype =
      countOf (calculate_stats vs).by_type v.vtype + 1 ∧
    (calculate_stats (vs ++ [v])).severity_score =
      (calculate_stats vs).severity_score + 1 ∧
    (calculate_stats (vs ++ [v])).timeline =
      (calculate_stats vs).timeline ++ [⟨v.timestamp, v.vtype, 1⟩] ∧
    (calculate_stats (vs ++ [v])).average_severity =
      (((calculate_stats vs).severity_score : ℚ) + 1) /
        ((vs.length : ℚ) + 1) := by
  refine ⟨?_, ?_, ?_, ?_, ?_⟩
  · rw [calculate_stats_total]
    simp
  · rw [calculate_stats_count, calculate_stats_count]
    simp
  · rw [calculate_stats_severity, calculate_stats_severity]
    simp [hmiss]
  · rw [calculate_stats_timeline, calculate_stats_timeline]
    simp [hmiss]
  · rw [calculate_stats_avg]
    have hlen : (vs ++ [v]).length = vs.length + 1 := by simp
    rw [if_neg (by simp)]
    rw [show (calculate_stats (vs ++ [v])).severity_score =
        (calculate_stats vs).severity_score + 1 by
      rw [calculate_stats_severity, calculate_stats_severity]
      simp [hmiss]]
    rw [hlen]
    push_cast
    ring_nf

/-- Witness for C10: SPEECH_VIOLATION has an alert message but no entry in
the reporting severity map. -/
theorem c10_missing_severity_default_witness :
    (ReportGenerator.calculate_stats
        ([] ++ [⟨"SPEECH_VIOLATION", "t1"⟩])).total = 0 + 1 ∧
    ReportGenerator.countOf
        (ReportGenerator.calculate_stats
          ([] ++ [⟨"SPEECH_VIOLATION", "t1"⟩])).by_type "SPEECH_VIOLATION" =
      ReportGenerator.countOf
        (ReportGenerator.calculate_stats []).by_type "SPEECH_VIOLATION" + 1 ∧
    (ReportGenerator.calculate_stats
        ([] ++ [⟨"SPEECH_VIOLATION", "t1"⟩])).severity_score =
      (ReportGenerator.calculate_stats []).severity_score + 1 ∧
    (ReportGenerator.calculate_stats
        ([] ++ [⟨"SPEECH_VIOLATION", "t1"⟩])).timeline =
      (ReportGenerator.calculate_stats []).timeline ++
        [⟨"t1", "SPEECH_VIOLATION", 1⟩] ∧
    (ReportGenerator.calculate_stats
        ([] ++ [⟨"SPEECH_VIOLATION", "t1"⟩])).average_severity =
      (((ReportGenerator.calculate_stats []).severity_score : ℚ) + 1) /
        (((List.length ([] : List Violation)) : ℚ) + 1) :=
  c10_missing_severity_default [] ⟨"SPEECH_VIOLATION", "t1"⟩ rfl
